import Mathlib

/-!
Verification of the size-diff reporting core of compressed-size-action.

The definitions below are a shallow embedding of src/src/utils.js (and the
call sites in src/src/index.js).  JavaScript numbers are modelled as exact
integers and rationals; JavaScript strings as Lean strings; fallible code
returns Except.  External collaborators (the pretty-bytes npm package and
the built-in RegExp engine) are embedded from their documented behaviour,
as noted at each definition.
-/

/-! ## The pretty-bytes external formatter

Embedding of the pretty-bytes npm package (default options), which
utils.js imports: a non-negative count below 1 is printed as-is with
unit B; otherwise the value is scaled by 1000^exponent, kept to 3
significant digits (round half away from zero, trailing zeros dropped),
and suffixed with the matching unit.  Negative input gets a leading minus
applied to the formatted absolute value. -/

def prettyByteUnits : List String :=
  ["B", "kB", "MB", "GB", "TB", "PB", "EB", "ZB", "YB"]

/-- Drop trailing zero characters of a digit run. -/
def stripTrailingZeros (s : List Char) : List Char :=
  (s.reverse.dropWhile (fun c => c = '0')).reverse

/-- Render the integer r / 10^k the way JavaScript prints that Number:
integer part, then the k fraction digits with trailing zeros removed. -/
def renderScaled (r k : Nat) : String :=
  let ip := r / 10 ^ k
  let fr := r % 10 ^ k
  let raw := toString fr
  let frs := stripTrailingZeros (List.replicate (k - raw.length) '0' ++ raw.data)
  if frs.isEmpty then toString ip else toString ip ++ "." ++ String.mk frs

/-- Count of decimal digits of n, so that decimalDigits n - 1 is the
floor of log10 n used by pretty-bytes to pick the exponent. -/
def decimalDigits (n : Nat) : Nat :=
  (toString n).length

/-- pretty-bytes on a positive count: scale by 1000^exponent and keep 3
significant digits, rounding half away from zero as Number.toPrecision
does. -/
def prettyBytesPos (n : Nat) : String :=
  let e0 := (decimalDigits n - 1) / 3
  let e := if e0 ≤ 8 then e0 else 8
  let d := decimalDigits n - 3 * e
  let unit := prettyByteUnits.getD e "B"
  if d ≤ 3 then
    let k := 3 - d
    let r := (2 * n * 10 ^ k + 1000 ^ e) / (2 * 1000 ^ e)
    renderScaled r k ++ " " ++ unit
  else
    let scale := 1000 ^ e * 10 ^ (d - 3)
    let r := (2 * n + scale) / (2 * scale)
    toString (r * 10 ^ (d - 3)) ++ " " ++ unit

/-- pretty-bytes on a JavaScript number holding an integer. -/
def prettyBytes (n : Int) : String :=
  if n < 0 then "-" ++ (if -n < 1 then "0 B" else prettyBytesPos (-n).toNat)
  else if n < 1 then "0 B"
  else prettyBytesPos n.toNat

/-! ## JavaScript numeric helpers used by the classifier -/

/-- Round the exact rational num / den (den nonzero) half towards positive
infinity, as Math.round does; the floating-point quotient of the source is
modelled as the exact rational. -/
def jsMathRoundFrac (num den : Int) : Int :=
  let n := if den < 0 then -num else num
  let d := if den < 0 then -den else den
  Int.ediv (2 * n + d) (2 * d)

/-- Number(((delta / originalSize) * 100).toFixed(2)) as an exact count of
hundredths of a percent: toFixed(2) rounds the magnitude of the percentage
to the nearest hundredth, half away from zero, and keeps the sign. -/
def percentTimes100 (delta originalSize : Int) : Int :=
  let m : Nat := (2 * (10000 * delta.natAbs) + originalSize.natAbs)
    / (2 * originalSize.natAbs)
  if (delta < 0 ∧ 0 < originalSize) ∨ (0 < delta ∧ originalSize < 0) then -(m : Int)
  else (m : Int)

/-- How JavaScript prints the Number produced by Number(x.toFixed(2)),
given that number as an exact count m of hundredths: sign, integer part,
then at most two fraction digits with trailing zeros omitted. -/
def jsNumberToFixed2String (m : Int) : String :=
  let sign := if m < 0 then "-" else ""
  let a := m.natAbs
  let ip := a / 100
  let fr := a % 100
  if fr = 0 then sign ++ toString ip
  else if fr % 10 = 0 then sign ++ toString ip ++ "." ++ toString (fr / 10)
  else if fr < 10 then sign ++ toString ip ++ ".0" ++ toString fr
  else sign ++ toString ip ++ "." ++ toString fr

/-! ## Difference classifier (src/src/utils.js lines 78-110) -/

/-- Embedding of getDeltaText (utils.js lines 78-91). -/
def getDeltaText (delta originalSize : Int) : String :=
  let deltaText := (if delta > 0 then "+" else "") ++ prettyBytes delta
  if delta.natAbs = 0 then deltaText
  else if originalSize = 0 then deltaText ++ " (new file)"
  else if originalSize = -delta then deltaText ++ " (removed)"
  else
    let percentage := percentTimes100 delta originalSize
    deltaText ++ " (" ++ (if percentage > 0 then "+" else "")
      ++ jsNumberToFixed2String percentage ++ "%)"

/-- Embedding of iconForDifference (utils.js lines 97-110). -/
def iconForDifference (delta originalSize : Int) : String :=
  if originalSize = 0 then "🆕"
  else
    let percentage := jsMathRoundFrac (100 * delta) originalSize
    if percentage ≥ 50 then "🆘"
    else if percentage ≥ 20 then "🚨"
    else if percentage ≥ 10 then "⚠️"
    else if percentage ≥ 5 then "🔍"
    else if percentage ≤ -50 then "🏆"
    else if percentage ≤ -20 then "🎉"
    else if percentage ≤ -10 then "👏"
    else if percentage ≤ -5 then "✅"
    else ""

example : prettyBytes 5000 = "5 kB" := by decide
example : prettyBytes 0 = "0 B" := by decide
example : prettyBytes 210 = "210 B" := by decide
example : prettyBytes (-5000) = "-5 kB" := by decide
example : prettyBytes 14800 = "14.8 kB" := by decide
example : prettyBytes 4875 = "4.88 kB" := by decide
example : prettyBytes 2500 = "2.5 kB" := by decide
example : getDeltaText 5000 20000 = "+5 kB (+25%)" := by decide
example : getDeltaText (-5000) 20000 = "-5 kB (-25%)" := by decide
example : getDeltaText 210 0 = "+210 B (new file)" := by decide
example : getDeltaText 0 0 = "0 B" := by decide
example : getDeltaText 4875 20000 = "+4.88 kB (+24.38%)" := by decide
example : iconForDifference 0 5000 = "" := by decide
example : iconForDifference 5500 5000 = "🆘" := by decide
example : iconForDifference (-550) 5000 = "👏" := by decide

/-! ## markdownTable (src/src/utils.js lines 116-151) -/

/-- The while-loop guard of markdownTable: every row's last cell is falsy.
A missing cell (empty row) is undefined in JavaScript, hence also falsy. -/
def allLastFalsy (rows : List (List String)) : Bool :=
  rows.all (fun columns => (columns.getLast?.getD "").isEmpty)

/-- The while loop of markdownTable: pop the last column of every row while
those cells are all falsy.  The source loop diverges if every cell of every
row is falsy; it is fueled here (markdownTable passes one unit of fuel per
column, after which the loop either stopped or has emptied every row). -/
def stripTrailingEmptyCols : Nat → List (List String) → List (List String)
  | 0, rows => rows
  | fuel + 1, rows =>
    if allLastFalsy rows then stripTrailingEmptyCols fuel (rows.map List.dropLast)
    else rows

/-- Number of columns of the widest row, the fuel bound for the while loop. -/
def maxColLen (rows : List (List String)) : Nat :=
  rows.foldr (fun r m => max r.length m) 0

/-- One rendered table line: | a | b | c |. -/
def tableLine (columns : List String) : String :=
  "| " ++ String.intercalate " | " columns ++ " |"

/-- markdownTable after the trailing-empty-column loop: hide the Change
column when exactly three columns remain and every Change cell is 0 B,
then emit header, alignment and body lines. -/
def markdownTableCore (rows0 : List (List String)) : String :=
  let columnLength0 := (rows0.headD []).length
  let p := if columnLength0 = 3 && rows0.all (fun columns => columns.getD 2 "" == "0 B")
    then (rows0.map List.dropLast, columnLength0 - 1)
    else (rows0, columnLength0)
  if p.2 = 0 then ""
  else String.intercalate "\n"
    (((["Filename", "Size", "Change", ""].take p.2)
      :: ([":---", ":---:", ":---:", ":---:"].take p.2)
      :: p.1).map tableLine)

/-- Embedding of markdownTable (utils.js lines 116-151). -/
def markdownTable (rows : List (List String)) : String :=
  if rows.isEmpty then ""
  else markdownTableCore (stripTrailingEmptyCols (maxColLen rows) rows)

example : markdownTable [] = "" := by decide
example : markdownTable [["`one.js`", "5 kB", "+2.5 kB (+100%)", "🆘"]] =
    "| Filename | Size | Change |  |\n| :--- | :---: | :---: | :---: |\n| `one.js` | 5 kB | +2.5 kB (+100%) | 🆘 |" := by
  decide
example : markdownTable [["`three.js`", "300 B", "0 B", ""]] =
    "| Filename | Size |\n| :--- | :---: |\n| `three.js` | 300 B |" := by
  decide

/-! ## Diff records and the sort comparator (utils.js lines 153-194) -/

/-- One Diff record: filename, new size in bytes, signed byte delta. -/
structure Diff where
  filename : String
  size : Int
  delta : Int
deriving DecidableEq, Repr

/-- Split a character list into its leading run satisfying p and the rest. -/
def splitRun (p : Char → Bool) : List Char → List Char × List Char
  | [] => ([], [])
  | c :: cs =>
    if p c then
      let r := splitRun p cs
      (c :: r.1, r.2)
    else ([], c :: cs)

/-- Numeric value of a run of decimal digits. -/
def digitRunValue (run : List Char) : Nat :=
  run.foldl (fun n c => 10 * n + (c.toNat - 48)) 0

/-- Model of String.prototype.localeCompare(. , undefined, numeric true),
fueled by the total length of the two inputs: characters compare by code
point, except that maximal runs of decimal digits compare as numbers
(value first, then run length).  Locale tailorings of the external ICU
collator beyond this numeric behaviour are outside the embedding; no
claim depends on the resulting order, only on it being a permutation. -/
def localeCompareNumericAux : Nat → List Char → List Char → Ordering
  | 0, _, _ => Ordering.eq
  | _ + 1, [], [] => Ordering.eq
  | _ + 1, [], _ :: _ => Ordering.lt
  | _ + 1, _ :: _, [] => Ordering.gt
  | fuel + 1, a@(c :: cs), b@(d :: ds) =>
    if c.isDigit && d.isDigit then
      let ra := splitRun Char.isDigit a
      let rb := splitRun Char.isDigit b
      let byValue := compare (digitRunValue ra.1) (digitRunValue rb.1)
      if byValue = Ordering.eq then
        let byLength := compare ra.1.length rb.1.length
        if byLength = Ordering.eq then localeCompareNumericAux fuel ra.2 rb.2
        else byLength
      else byValue
    else
      let byChar := compare c.toNat d.toNat
      if byChar = Ordering.eq then localeCompareNumericAux fuel cs ds else byChar

/-- localeCompare with numeric collation on whole strings. -/
def localeCompareNumeric (x y : String) : Ordering :=
  localeCompareNumericAux (x.data.length + y.data.length + 1) x.data y.data

/-- Split a character list at every occurrence of sep, keeping empty
pieces, as String.prototype.split does with a one-character separator. -/
def splitOnChar (sep : Char) : List Char → List (List Char)
  | [] => [[]]
  | c :: cs =>
    let r := splitOnChar sep cs
    if c = sep then [] :: r
    else
      match r with
      | [] => [[c]]
      | h :: t => (c :: h) :: t

/-- String.prototype.split with a one-character separator. -/
def jsSplit (s : String) (sep : Char) : List String :=
  (splitOnChar sep s.data).map String.mk

/-- The columnIndex lookup of diffTable (utils.js lines 183-187) combined
with the .toString() conversion applied to the selected field: an
unrecognized column name yields none, modelling the TypeError JavaScript
raises when reading toString of undefined inside the comparator. -/
def sortColumnKey : String → Option (Diff → String)
  | "Filename" => some (fun f => f.filename)
  | "Size" => some (fun f => toString f.size)
  | "Change" => some (fun f => toString f.delta)
  | _ => none

/-- The comparator passed to files.sort (utils.js lines 189-194), as the
relation "a sorts no later than b": the comparator result is nonpositive.
Any direction other than asc takes the descending branch, as in the
source. -/
def jsSortLE (key : Diff → String) (asc : Bool) (a b : Diff) : Prop :=
  (if asc then localeCompareNumeric (key a) (key b)
   else localeCompareNumeric (key b) (key a)) ≠ Ordering.gt

instance (key : Diff → String) (asc : Bool) : DecidableRel (jsSortLE key asc) := by
  intro a b
  unfold jsSortLE
  infer_instance

/-! ## diffTable (src/src/utils.js lines 177-239) -/

/-- Classification of one record (utils.js line 204): unchanged means the
absolute delta is below the minimum change threshold. -/
def recordUnchanged (minimumChangeThreshold : Int) (f : Diff) : Bool :=
  decide ((f.delta.natAbs : Int) < minimumChangeThreshold)

/-- The four-cell row built for one record (utils.js lines 210-215). -/
def diffRow (f : Diff) : List String :=
  let originalSize := f.size - f.delta
  ["`" ++ f.filename ++ "`",
   prettyBytes f.size,
   getDeltaText f.delta originalSize,
   iconForDifference f.delta originalSize]

/-- The for-loop of diffTable (utils.js lines 196-221) over the already
sorted list: returns (changedRows, unChangedRows, totalSize, totalDelta).
Totals accumulate for every record, before the omit-unchanged continue. -/
def diffLoop (minimumChangeThreshold : Int) (omitUnchanged collapseUnchanged : Bool) :
    List Diff → List (List String) × List (List String) × Int × Int
  | [] => ([], [], 0, 0)
  | f :: rest =>
    let prev := diffLoop minimumChangeThreshold omitUnchanged collapseUnchanged rest
    let isUnchanged := recordUnchanged minimumChangeThreshold f
    let rows :=
      if isUnchanged && omitUnchanged then (prev.1, prev.2.1)
      else if isUnchanged && collapseUnchanged then (prev.1, diffRow f :: prev.2.1)
      else (diffRow f :: prev.1, prev.2.1)
    (rows.1, rows.2, f.size + prev.2.2.1, f.delta + prev.2.2.2)

/-- The two summary lines prepended when showTotal is set (utils.js lines
230-236), already concatenated in their final order. -/
def totalLines (totalSize totalDelta : Int) : String :=
  "**Size Change:** " ++ getDeltaText totalDelta (totalSize - totalDelta) ++ " "
    ++ iconForDifference totalDelta (totalSize - totalDelta) ++ "\n\n"
    ++ "**Total Size:** " ++ prettyBytes totalSize ++ "\n\n"

/-- The collapsible block holding unchanged rows (utils.js line 227). -/
def unchangedBlock (table : String) : String :=
  "\n\n<details><summary>ℹ️ <strong>View Unchanged</strong></summary>\n\n"
    ++ table ++ "\n\n</details>\n\n"

/-- Options object taken by diffTable.  sortBy is an Option because the
production callers omit the field, which is undefined in JavaScript. -/
structure DiffOptions where
  showTotal : Bool
  collapseUnchanged : Bool
  omitUnchanged : Bool
  minimumChangeThreshold : Int
  sortBy : Option String
deriving Repr

/-- Embedding of diffTable (utils.js lines 177-239).  The result carries,
next to the returned string, the final contents of the caller's files
array, which Array.prototype.sort reorders in place; failures of the
JavaScript code (reading split of undefined when sortBy is omitted,
reading toString of undefined when the sort column is unrecognized) are
Except errors. -/
def diffTableRun (files : List Diff) (o : DiffOptions) :
    Except String (String × List Diff) :=
  match o.sortBy with
  | none => Except.error "TypeError: Cannot read properties of undefined (reading 'split')"
  | some sortBy =>
    let parts := jsSplit sortBy ':' 
    match sortColumnKey (parts.headD "") with
    | none => Except.error "TypeError: Cannot read properties of undefined (reading 'toString')"
    | some key =>
      let asc := parts[1]? == some "asc"
      let sorted := files.insertionSort (jsSortLE key asc)
      let r := diffLoop o.minimumChangeThreshold o.omitUnchanged o.collapseUnchanged sorted
      let out0 := markdownTable r.1
      let out1 :=
        if r.2.1.isEmpty then out0
        else out0 ++ unchangedBlock (markdownTable r.2.1)
      let out2 := if o.showTotal then totalLines r.2.2.1 r.2.2.2 ++ out1 else out1
      Except.ok (out2, sorted)

/-- The string diffTable returns. -/
def diffTable (files : List Diff) (o : DiffOptions) : Except String String :=
  (diffTableRun files o).map Prod.fst

/-! ## toBool and getSortOrder (utils.js lines 245-263) -/

/-- Embedding of toBool (utils.js lines 245-247). -/
def toBool (v : String) : Bool :=
  v == "1" || v == "true" || v == "yes"

/-- Embedding of getSortOrder (utils.js lines 253-263): destructure the
first two colon-separated fields and validate them; on failure warn and
fall back to Filename ascending. -/
def getSortOrder (sortBy : String) : String :=
  let parts := jsSplit sortBy ':' 
  let column := parts.headD ""
  let direction := parts[1]?
  if column ∈ (["Filename", "Size", "Change"] : List String)
      ∧ (direction = some "asc" ∨ direction = some "desc") then sortBy
  else "Filename:asc"

/-- The options object the production orchestrator builds for diffTable
(src/src/index.js lines 444-449): the four listed fields only, so sortBy
is omitted (undefined).  The raw action inputs arrive as strings through
toBool; the parsed minimum change threshold is taken as a number. -/
def runDiffTableOptions (collapseInput omitInput showTotalInput : String)
    (minimumChangeThreshold : Int) : DiffOptions :=
  { showTotal := toBool showTotalInput,
    collapseUnchanged := toBool collapseInput,
    omitUnchanged := toBool omitInput,
    minimumChangeThreshold := minimumChangeThreshold,
    sortBy := none }

example : toBool "1" = true := by decide
example : toBool "no" = false := by decide
example : getSortOrder "Size:desc" = "Size:desc" := by decide
example : getSortOrder "bogus" = "Filename:asc" := by decide
example : getSortOrder "Filename:asc:extra" = "Filename:asc:extra" := by decide

/-! ## Specification-side restatements used to settle the claims -/

/-- The delta text exactly as the specification words it: the plain
pretty-printed size 0 B when the delta is zero, otherwise the signed
pretty-printed delta followed by the new-file, removed, or rounded
percentage parenthetical, the percentage carrying a leading plus exactly
when positive. -/
def specDeltaText (delta originalSize : Int) : String :=
  if delta = 0 then "0 B"
  else
    let signed := (if delta > 0 then "+" else "") ++ prettyBytes delta
    if originalSize = 0 then signed ++ " (new file)"
    else if originalSize = -delta then signed ++ " (removed)"
    else
      let percentage := percentTimes100 delta originalSize
      signed ++ " (" ++ (if percentage > 0 then "+" else "")
        ++ jsNumberToFixed2String percentage ++ "%)"

/-- The set of severity bands the specification assigns to a rounded
percentage, written with both endpoints so that the bands are disjoint
ranges; a percentage belongs to the listed band exactly when its
condition holds. -/
def severityBands (p : Int) : List String :=
  (if 50 ≤ p then ["🆘"] else [])
    ++ (if 20 ≤ p ∧ p < 50 then ["🚨"] else [])
    ++ (if 10 ≤ p ∧ p < 20 then ["⚠️"] else [])
    ++ (if 5 ≤ p ∧ p < 10 then ["🔍"] else [])
    ++ (if p ≤ -50 then ["🏆"] else [])
    ++ (if -50 < p ∧ p ≤ -20 then ["🎉"] else [])
    ++ (if -20 < p ∧ p ≤ -10 then ["👏"] else [])
    ++ (if -10 < p ∧ p ≤ -5 then ["✅"] else [])

/-- C1: getDeltaText prints the bare pretty-printed 0 B for a zero delta,
the signed delta with a new-file marker for a vanishing original size, the
removed marker when the delta cancels the original size, and otherwise the
signed delta with the percentage (delta / originalSize) * 100 rounded to
two decimals and prefixed with a plus exactly when positive; including the
three pinned examples. -/
theorem getDeltaText_matches_spec :
    (∀ delta originalSize : Int, 0 ≤ originalSize →
      getDeltaText delta originalSize = specDeltaText delta originalSize)
    ∧ getDeltaText 5000 20000 = "+5 kB (+25%)"
    ∧ getDeltaText (-5000) 20000 = "-5 kB (-25%)"
    ∧ getDeltaText 210 0 = "+210 B (new file)" := by
  refine ⟨?_, by decide, by decide, by decide⟩
  intro delta originalSize _
  by_cases h : delta = 0
  · subst h
    show ((if (0 : Int) > 0 then "+" else "") ++ prettyBytes 0) = specDeltaText 0 originalSize
    simp [specDeltaText]
    decide
  · simp only [getDeltaText, specDeltaText, Int.natAbs_eq_zero, h, if_neg, if_false]

/-- C1 witness: the universal part of the C1 theorem applied at the delta
5000 against original size 20000. -/
theorem getDeltaText_matches_spec_witness :
    (0 : Int) ≤ 20000 ∧ getDeltaText 5000 20000 = specDeltaText 5000 20000 :=
  ⟨by decide, getDeltaText_matches_spec.1 5000 20000 (by decide)⟩

/-- C2: iconForDifference yields the distinct new-file icon when the
original size is zero; otherwise the rounded percentage falls in at most
one severity band and the returned icon is exactly that band (or empty
when no band matches); including the three pinned examples. -/
theorem iconForDifference_matches_bands :
    (∀ delta originalSize : Int, originalSize = 0 →
      iconForDifference delta originalSize = "🆕")
    ∧ ("🆕" : String) ∉ ["🆘", "🚨", "⚠️", "🔍", "🏆", "🎉", "👏", "✅", ""]
    ∧ (∀ delta originalSize : Int, 0 < originalSize →
        severityBands (jsMathRoundFrac (100 * delta) originalSize)
          = (if iconForDifference delta originalSize = "" then []
             else [iconForDifference delta originalSize]))
    ∧ iconForDifference 0 5000 = ""
    ∧ iconForDifference 5500 5000 = "🆘"
    ∧ iconForDifference (-550) 5000 = "👏" := by
  refine ⟨?_, by decide, ?_, by decide, by decide, by decide⟩
  · intro delta originalSize h
    simp [iconForDifference, h]
  · intro delta originalSize h
    have h0 : originalSize ≠ 0 := by omega
    simp only [iconForDifference, severityBands, if_neg h0]
    set p := jsMathRoundFrac (100 * delta) originalSize with hp
    rcases (show 50 ≤ p ∨ (20 ≤ p ∧ p < 50) ∨ (10 ≤ p ∧ p < 20) ∨ (5 ≤ p ∧ p < 10)
        ∨ p ≤ -50 ∨ (-50 < p ∧ p ≤ -20) ∨ (-20 < p ∧ p ≤ -10) ∨ (-10 < p ∧ p ≤ -5)
        ∨ (-5 < p ∧ p < 5) by omega) with h | h | h | h | h | h | h | h | h
    · rw [if_pos (show 50 ≤ p by omega), if_neg (show ¬(20 ≤ p ∧ p < 50) by omega),
        if_neg (show ¬(10 ≤ p ∧ p < 20) by omega), if_neg (show ¬(5 ≤ p ∧ p < 10) by omega),
        if_neg (show ¬p ≤ -50 by omega), if_neg (show ¬(-50 < p ∧ p ≤ -20) by omega),
        if_neg (show ¬(-20 < p ∧ p ≤ -10) by omega), if_neg (show ¬(-10 < p ∧ p ≤ -5) by omega),
        if_pos (show p ≥ 50 by omega)]
      decide
    · rw [if_neg (show ¬50 ≤ p by omega), if_pos (show 20 ≤ p ∧ p < 50 by omega),
        if_neg (show ¬(10 ≤ p ∧ p < 20) by omega), if_neg (show ¬(5 ≤ p ∧ p < 10) by omega),
        if_neg (show ¬p ≤ -50 by omega), if_neg (show ¬(-50 < p ∧ p ≤ -20) by omega),
        if_neg (show ¬(-20 < p ∧ p ≤ -10) by omega), if_neg (show ¬(-10 < p ∧ p ≤ -5) by omega),
        if_neg (show ¬p ≥ 50 by omega), if_pos (show p ≥ 20 by omega)]
      decide
    · rw [if_neg (show ¬50 ≤ p by omega), if_neg (show ¬(20 ≤ p ∧ p < 50) by omega),
        if_pos (show 10 ≤ p ∧ p < 20 by omega), if_neg (show ¬(5 ≤ p ∧ p < 10) by omega),
        if_neg (show ¬p ≤ -50 by omega), if_neg (show ¬(-50 < p ∧ p ≤ -20) by omega),
        if_neg (show ¬(-20 < p ∧ p ≤ -10) by omega), if_neg (show ¬(-10 < p ∧ p ≤ -5) by omega),
        if_neg (show ¬p ≥ 50 by omega), if_neg (show ¬p ≥ 20 by omega),
        if_pos (show p ≥ 10 by omega)]
      decide
    · rw [if_neg (show ¬50 ≤ p by omega), if_neg (show ¬(20 ≤ p ∧ p < 50) by omega),
        if_neg (show ¬(10 ≤ p ∧ p < 20) by omega), if_pos (show 5 ≤ p ∧ p < 10 by omega),
        if_neg (show ¬p ≤ -50 by omega), if_neg (show ¬(-50 < p ∧ p ≤ -20) by omega),
        if_neg (show ¬(-20 < p ∧ p ≤ -10) by omega), if_neg (show ¬(-10 < p ∧ p ≤ -5) by omega),
        if_neg (show ¬p ≥ 50 by omega), if_neg (show ¬p ≥ 20 by omega),
        if_neg (show ¬p ≥ 10 by omega), if_pos (show p ≥ 5 by omega)]
      decide
    · rw [if_neg (show ¬50 ≤ p by omega), if_neg (show ¬(20 ≤ p ∧ p < 50) by omega),
        if_neg (show ¬(10 ≤ p ∧ p < 20) by omega), if_neg (show ¬(5 ≤ p ∧ p < 10) by omega),
        if_pos (show p ≤ -50 by omega), if_neg (show ¬(-50 < p ∧ p ≤ -20) by omega),
        if_neg (show ¬(-20 < p ∧ p ≤ -10) by omega), if_neg (show ¬(-10 < p ∧ p ≤ -5) by omega),
        if_neg (show ¬p ≥ 50 by omega), if_neg (show ¬p ≥ 20 by omega),
        if_neg (show ¬p ≥ 10 by omega), if_neg (show ¬p ≥ 5 by omega),
        if_pos (show p ≤ -50 by omega)]
      decide
    · rw [if_neg (show ¬50 ≤ p by omega), if_neg (show ¬(20 ≤ p ∧ p < 50) by omega),
        if_neg (show ¬(10 ≤ p ∧ p < 20) by omega), if_neg (show ¬(5 ≤ p ∧ p < 10) by omega),
        if_neg (show ¬p ≤ -50 by omega), if_pos (show -50 < p ∧ p ≤ -20 by omega),
        if_neg (show ¬(-20 < p ∧ p ≤ -10) by omega), if_neg (show ¬(-10 < p ∧ p ≤ -5) by omega),
        if_neg (show ¬p ≥ 50 by omega), if_neg (show ¬p ≥ 20 by omega),
        if_neg (show ¬p ≥ 10 by omega), if_neg (show ¬p ≥ 5 by omega),
        if_neg (show ¬p ≤ -50 by omega), if_pos (show p ≤ -20 by omega)]
      decide
    · rw [if_neg (show ¬50 ≤ p by omega), if_neg (show ¬(20 ≤ p ∧ p < 50) by omega),
        if_neg (show ¬(10 ≤ p ∧ p < 20) by omega), if_neg (show ¬(5 ≤ p ∧ p < 10) by omega),
        if_neg (show ¬p ≤ -50 by omega), if_neg (show ¬(-50 < p ∧ p ≤ -20) by omega),
        if_pos (show -20 < p ∧ p ≤ -10 by omega), if_neg (show ¬(-10 < p ∧ p ≤ -5) by omega),
        if_neg (show ¬p ≥ 50 by omega), if_neg (show ¬p ≥ 20 by omega),
        if_neg (show ¬p ≥ 10 by omega), if_neg (show ¬p ≥ 5 by omega),
        if_neg (show ¬p ≤ -50 by omega), if_neg (show ¬p ≤ -20 by omega),
        if_pos (show p ≤ -10 by omega)]
      decide
    · rw [if_neg (show ¬50 ≤ p by omega), if_neg (show ¬(20 ≤ p ∧ p < 50) by omega),
        if_neg (show ¬(10 ≤ p ∧ p < 20) by omega), if_neg (show ¬(5 ≤ p ∧ p < 10) by omega),
        if_neg (show ¬p ≤ -50 by omega), if_neg (show ¬(-50 < p ∧ p ≤ -20) by omega),
        if_neg (show ¬(-20 < p ∧ p ≤ -10) by omega), if_pos (show -10 < p ∧ p ≤ -5 by omega),
        if_neg (show ¬p ≥ 50 by omega), if_neg (show ¬p ≥ 20 by omega),
        if_neg (show ¬p ≥ 10 by omega), if_neg (show ¬p ≥ 5 by omega),
        if_neg (show ¬p ≤ -50 by omega), if_neg (show ¬p ≤ -20 by omega),
        if_neg (show ¬p ≤ -10 by omega), if_pos (show p ≤ -5 by omega)]
      decide
    · rw [if_neg (show ¬50 ≤ p by omega), if_neg (show ¬(20 ≤ p ∧ p < 50) by omega),
        if_neg (show ¬(10 ≤ p ∧ p < 20) by omega), if_neg (show ¬(5 ≤ p ∧ p < 10) by omega),
        if_neg (show ¬p ≤ -50 by omega), if_neg (show ¬(-50 < p ∧ p ≤ -20) by omega),
        if_neg (show ¬(-20 < p ∧ p ≤ -10) by omega), if_neg (show ¬(-10 < p ∧ p ≤ -5) by omega),
        if_neg (show ¬p ≥ 50 by omega), if_neg (show ¬p ≥ 20 by omega),
        if_neg (show ¬p ≥ 10 by omega), if_neg (show ¬p ≥ 5 by omega),
        if_neg (show ¬p ≤ -50 by omega), if_neg (show ¬p ≤ -20 by omega),
        if_neg (show ¬p ≤ -10 by omega), if_neg (show ¬p ≤ -5 by omega)]
      decide

/-- C2 witness: the universal parts of the C2 theorem applied at a zero
original size and at the pinned shrink example. -/
theorem iconForDifference_matches_bands_witness :
    iconForDifference 7 0 = "🆕"
    ∧ severityBands (jsMathRoundFrac (100 * (-550)) 5000)
        = (if iconForDifference (-550) 5000 = "" then []
           else [iconForDifference (-550) 5000]) :=
  ⟨iconForDifference_matches_bands.1 7 0 rfl,
   iconForDifference_matches_bands.2.2.1 (-550) 5000 (by decide)⟩

/-! ## Lemmas about markdownTable column dropping -/

theorem maxColLen_const {α : Type} (g : α → List String) (n : Nat)
    (h : ∀ a, (g a).length = n) :
    ∀ rs : List α, rs ≠ [] → maxColLen (rs.map g) = n := by
  intro rs
  induction rs with
  | nil => intro h2; exact absurd rfl h2
  | cons a t ih =>
    intro _
    cases t with
    | nil => simp [maxColLen, h]
    | cons b u =>
      have ht := ih (by simp)
      show max (g a).length (maxColLen ((b :: u).map g)) = n
      rw [h a, ht, Nat.max_self]

theorem stripTrailingEmptyCols_step {fuel : Nat} {rows : List (List String)}
    (h : allLastFalsy rows = true) :
    stripTrailingEmptyCols (fuel + 1) rows
      = stripTrailingEmptyCols fuel (rows.map List.dropLast) := by
  simp [stripTrailingEmptyCols, h]

theorem stripTrailingEmptyCols_stop {fuel : Nat} {rows : List (List String)}
    (h : allLastFalsy rows = false) :
    stripTrailingEmptyCols (fuel + 1) rows = rows := by
  simp [stripTrailingEmptyCols, h]

theorem allLastFalsy_map_four {α : Type} (f g i : α → String) (rs : List α) :
    allLastFalsy (rs.map fun r => [f r, g r, i r, ""]) = true := by
  simp only [allLastFalsy, List.all_eq_true]
  intro a ha
  rcases List.mem_map.mp ha with ⟨r, _, rfl⟩
  rfl

theorem dropLast_map_four {α : Type} (f g i : α → String) (rs : List α) :
    (rs.map fun r => [f r, g r, i r, ""]).map List.dropLast
      = rs.map fun r => [f r, g r, i r] := by
  simp only [List.map_map]
  rfl

theorem allLastFalsy_map_three {α : Type} (f g i : α → String) (rs : List α)
    (hx : ∃ r ∈ rs, i r ≠ "") :
    allLastFalsy (rs.map fun r => [f r, g r, i r]) = false := by
  rcases hx with ⟨r, hr, hne⟩
  have hmem : [f r, g r, i r] ∈ rs.map (fun r => [f r, g r, i r]) :=
    List.mem_map_of_mem _ hr
  by_contra hcon
  have htrue : allLastFalsy (rs.map fun r => [f r, g r, i r]) = true := by
    cases hb : allLastFalsy (rs.map fun r => [f r, g r, i r]) with
    | true => rfl
    | false => exact absurd hb hcon
  have hval := List.all_eq_true.mp htrue _ hmem
  simp only [List.getLast?_cons_cons, List.getLast?_singleton, Option.getD_some] at hval
  exact hne (by simpa [String.isEmpty_iff] using hval)

/-- C5 counterexample: a row list whose Change column is 0 B in every row
while the icon column has content; markdownTable keeps the all-0 B Change
column in both header and body, where the claim requires it omitted, and
the output differs from the table with the Change column dropped. -/
theorem markdownTable_keeps_zero_change_column :
    markdownTable [["`a.js`", "0 B", "0 B", "🆕"]]
      = "| Filename | Size | Change |  |\n| :--- | :---: | :---: | :---: |\n| `a.js` | 0 B | 0 B | 🆕 |"
    ∧ markdownTable [["`a.js`", "0 B", "0 B", "🆕"]]
      ≠ "| Filename | Size |  |\n| :--- | :---: | :---: |\n| `a.js` | 0 B | 🆕 |" := by
  exact ⟨by decide, by decide⟩

theorem dropLast_map_three {α : Type} (f g : α → String) (c : String) (rs : List α) :
    (rs.map fun r => [f r, g r, c]).map List.dropLast = rs.map fun r => [f r, g r] := by
  simp only [List.map_map]
  rfl

/-- C5 amended: zero rows render as the empty string; a trailing column
that is empty in every row is dropped from the rendered table (repeatedly,
from the last column backwards); and once exactly three columns remain, a
Change column reading 0 B in every row is dropped from both header and
body.  Columns other than a trailing run of all-empty ones followed by the
all-0 B Change case are kept even when empty. -/
theorem markdownTable_drops_trailing_and_zero_columns :
    markdownTable ([] : List (List String)) = ""
    ∧ (∀ rs : List (String × String × String), rs ≠ [] →
        (∃ r ∈ rs, r.2.2 ≠ "") →
        markdownTable (rs.map fun r => [r.1, r.2.1, r.2.2, ""])
          = markdownTable (rs.map fun r => [r.1, r.2.1, r.2.2]))
    ∧ (∀ rs : List (String × String), rs ≠ [] →
        markdownTable (rs.map fun r => [r.1, r.2, "0 B", ""])
          = String.intercalate "\n"
              ((["Filename", "Size"] :: [":---", ":---:"]
                :: rs.map fun r => [r.1, r.2]).map tableLine)) := by
  refine ⟨rfl, ?_, ?_⟩
  · intro rs hne hx
    cases rs with
    | nil => exact absurd rfl hne
    | cons a t =>
      unfold markdownTable
      rw [maxColLen_const (fun r : String × String × String => [r.1, r.2.1, r.2.2, ""]) 4
            (fun r => rfl) (a :: t) (by simp),
          maxColLen_const (fun r : String × String × String => [r.1, r.2.1, r.2.2]) 3
            (fun r => rfl) (a :: t) (by simp)]
      rw [if_neg (show ¬ (((a :: t).map fun r => [r.1, r.2.1, r.2.2, ""]).isEmpty = true) by simp),
          if_neg (show ¬ (((a :: t).map fun r => [r.1, r.2.1, r.2.2]).isEmpty = true) by simp)]
      have h1 : stripTrailingEmptyCols 4 ((a :: t).map fun r => [r.1, r.2.1, r.2.2, ""])
          = (a :: t).map fun r => [r.1, r.2.1, r.2.2] := by
        rw [show (4 : Nat) = 3 + 1 from rfl,
            stripTrailingEmptyCols_step (allLastFalsy_map_four _ _ _ _),
            dropLast_map_four,
            show (3 : Nat) = 2 + 1 from rfl,
            stripTrailingEmptyCols_stop (allLastFalsy_map_three _ _ _ _ hx)]
      have h2 : stripTrailingEmptyCols 3 ((a :: t).map fun r => [r.1, r.2.1, r.2.2])
          = (a :: t).map fun r => [r.1, r.2.1, r.2.2] := by
        rw [show (3 : Nat) = 2 + 1 from rfl,
            stripTrailingEmptyCols_stop (allLastFalsy_map_three _ _ _ _ hx)]
      rw [h1, h2]
  · intro rs hne
    cases rs with
    | nil => exact absurd rfl hne
    | cons a t =>
      unfold markdownTable
      rw [maxColLen_const (fun r : String × String => [r.1, r.2, "0 B", ""]) 4
            (fun r => rfl) (a :: t) (by simp)]
      rw [if_neg (show ¬ (((a :: t).map fun r => [r.1, r.2, "0 B", ""]).isEmpty = true) by simp)]
      have h1 : stripTrailingEmptyCols 4 ((a :: t).map fun r => [r.1, r.2, "0 B", ""])
          = (a :: t).map fun r => [r.1, r.2, "0 B"] := by
        rw [show (4 : Nat) = 3 + 1 from rfl,
            stripTrailingEmptyCols_step (allLastFalsy_map_four _ _ _ _),
            dropLast_map_four,
            show (3 : Nat) = 2 + 1 from rfl,
            stripTrailingEmptyCols_stop
              (allLastFalsy_map_three _ _ _ _ ⟨a, List.mem_cons_self a t, by decide⟩)]
      rw [h1]
      have hall : ((a :: t).map fun r => [r.1, r.2, "0 B"]).all
          (fun columns => columns.getD 2 "" == "0 B") = true := by
        simp only [List.all_eq_true]
        intro c hc
        rcases List.mem_map.mp hc with ⟨r, _, rfl⟩
        rfl
      simp only [markdownTableCore, hall, Bool.and_true]
      rw [dropLast_map_three]
      simp

/-- C5 witness: the amended C5 theorem applied to a one-row list with a
nonempty Change cell (the trailing empty icon column is dropped) and to a
one-row list whose Change cell is 0 B (the Change column is dropped too). -/
theorem markdownTable_drops_trailing_and_zero_columns_witness :
    markdownTable [["`one.js`", "5 kB", "+2.5 kB (+100%)", ""]]
      = markdownTable [["`one.js`", "5 kB", "+2.5 kB (+100%)"]]
    ∧ markdownTable [["`three.js`", "300 B", "0 B", ""]]
      = String.intercalate "\n"
          ((["Filename", "Size"] :: [":---", ":---:"]
            :: [["`three.js`", "300 B"]]).map tableLine) :=
  ⟨markdownTable_drops_trailing_and_zero_columns.2.1
      [("`one.js`", "5 kB", "+2.5 kB (+100%)")] (by decide)
      ⟨("`one.js`", "5 kB", "+2.5 kB (+100%)"), by decide, by decide⟩,
   markdownTable_drops_trailing_and_zero_columns.2.2
      [("`three.js`", "300 B")] (by decide)⟩

/-! ## stripHash and the external RegExp engine (utils.js lines 53-72)

stripHash builds a RegExp from a caller-supplied pattern string and uses
String.prototype.replace with a callback.  The RegExp engine is a
JavaScript builtin, external to the repository, so its behaviour is an
explicit parameter here: whether the pattern compiles, and the first-match
decomposition of a given input string.  Everything the source does around
the engine - the lazy construction inside the returned closure and the
replacement callback - is embedded below. -/

/-- First-match data produced by the engine for one input string: the text
before the match, the matched span, the capture list (none for an optional
group that did not participate), and the text after the match. -/
structure RegexMatch where
  pre : String
  matched : String
  captures : List (Option String)
  post : String
deriving DecidableEq

/-- One compiled-pattern behaviour of the external RegExp engine. -/
structure RegexEngine where
  compiles : Bool
  firstMatch : String → Option RegexMatch

/-- Does pat occur at the head of s. -/
def leadsWith : List Char → List Char → Bool
  | [], _ => true
  | _ :: _, [] => false
  | p :: ps, c :: cs => p == c && leadsWith ps cs

/-- Replace the first occurrence of pat in s by repl, as
String.prototype.replace does with a string search value; s is returned
unchanged when pat does not occur. -/
def replaceFirstAux (pat repl : List Char) : List Char → List Char
  | [] => if leadsWith pat [] then repl else []
  | c :: cs =>
    if leadsWith pat (c :: cs) then repl ++ (c :: cs).drop pat.length
    else c :: replaceFirstAux pat repl cs

/-- String.prototype.replace with a plain string search value. -/
def replaceFirst (s pat repl : String) : String :=
  String.mk (replaceFirstAux pat.data repl.data s.data)

/-- hash.replace with the dot-any pattern and an asterisk: every character
other than a line terminator becomes an asterisk. -/
def maskHash (s : String) : String :=
  String.mk (s.data.map fun c =>
    if c = '\n' ∨ c = '\r' ∨ c = '\u2028' ∨ c = '\u2029' then c else '*')

/-- The replacement callback of stripHash (utils.js lines 57-67): the
captured groups (offset and whole-string arguments already sliced away)
are filtered of non-participating ones; if any remain, each one replaces
its first occurrence in the matched span by its mask, otherwise the whole
span is replaced by the empty string. -/
def replaceCallback (str : String) (captures : List (Option String)) : String :=
  let hashes := captures.filterMap id
  if hashes.isEmpty then ""
  else hashes.foldl (fun s hash => replaceFirst s hash (maskHash hash)) str

theorem replaceCallback_eq (str : String) (captures : List (Option String)) :
    replaceCallback str captures
      = if (captures.filterMap id).isEmpty = true then ""
        else (captures.filterMap id).foldl
          (fun s hash => replaceFirst s hash (maskHash hash)) str := rfl

/-- fileName.replace(new RegExp(regex), callback) as run inside the
closure stripHash returns: the RegExp is constructed here, at call time,
so a non-compiling pattern raises only now. -/
def regexReplaceOnce (engine : RegexEngine) (fileName : String) :
    Except String String :=
  if engine.compiles = false then
    Except.error "SyntaxError: Invalid regular expression"
  else
    match engine.firstMatch fileName with
    | none => Except.ok fileName
    | some m => Except.ok (m.pre ++ replaceCallback m.matched m.captures ++ m.post)

/-- Embedding of stripHash (utils.js lines 53-72): a falsy (empty) pattern
yields undefined, otherwise a normalizer closure that compiles the pattern
on every call. -/
def stripHash (engineFor : String → RegexEngine) (regex : String) :
    Option (String → Except String String) :=
  if regex = "" then none
  else some (fun fileName => regexReplaceOnce (engineFor regex) fileName)

instance {e a : Type} [DecidableEq e] [DecidableEq a] : DecidableEq (Except e a) := fun x y =>
  match x, y with
  | Except.ok v, Except.ok w =>
    if h : v = w then Decidable.isTrue (congrArg Except.ok h)
    else Decidable.isFalse (fun hh => h (Except.ok.inj hh))
  | Except.error v, Except.error w =>
    if h : v = w then Decidable.isTrue (congrArg Except.error h)
    else Decidable.isFalse (fun hh => h (Except.error.inj hh))
  | Except.ok _, Except.error _ => Decidable.isFalse (fun hh => Except.noConfusion hh)
  | Except.error _, Except.ok _ => Decidable.isFalse (fun hh => Except.noConfusion hh)

/-- Apply an optional normalizer to a filename. -/
def applyNormalizer (normalizer : Option (String → Except String String))
    (fileName : String) : Option (Except String String) :=
  normalizer.map (fun f => f fileName)

/-- The external RegExp engine behaviour for the test-suite pattern
matching a period, five captured word characters, then .chunk.js at the
end: on foo.abcde.chunk.js it matches from the first period with the
capture abcde. -/
def engineChunkHash : RegexEngine :=
  { compiles := true,
    firstMatch := fun s =>
      if s = "foo.abcde.chunk.js" then
        some { pre := "foo", matched := ".abcde.chunk.js",
               captures := [some "abcde"], post := "" }
      else none }

/-- The external RegExp engine behaviour for the test-suite pattern
matching a word boundary, five word characters and a period, with no
capturing group: on foo.abcde.js it matches abcde. after foo. -/
def engineWordHash : RegexEngine :=
  { compiles := true,
    firstMatch := fun s =>
      if s = "foo.abcde.js" then
        some { pre := "foo.", matched := "abcde.", captures := [], post := "js" }
      else none }

/-- The external RegExp engine behaviour for the pattern ab(a): on the
string aba it matches the whole string, capturing the final a. -/
def engineAbParenA : RegexEngine :=
  { compiles := true,
    firstMatch := fun s =>
      if s = "aba" then
        some { pre := "", matched := "aba", captures := [some "a"], post := "" }
      else none }

/-- The external RegExp engine behaviour for a syntactically invalid
pattern such as a lone open parenthesis: construction fails. -/
def engineInvalid : RegexEngine :=
  { compiles := false, firstMatch := fun _ => none }

/-- C6 counterexample: with the one-capture pattern ab(a) on the filename
aba, the captured substring a sits at the end of the matched span, but the
normalizer masks the first occurrence of the letter a instead, producing
*ba where in-place masking of the capture would produce ab*. -/
theorem stripHash_masks_first_occurrence_not_in_place :
    applyNormalizer (stripHash (fun _ => engineAbParenA) "ab(a)") "aba"
      = some (Except.ok "*ba")
    ∧ (some (Except.ok "*ba") : Option (Except String String))
        ≠ some (Except.ok "ab*") := by
  exact ⟨by decide, by decide⟩

/-- C6 amended: for a nonempty pattern that compiles, the normalizer
returned by stripHash rewrites the first-match span as follows: when no
captured group participated (no groups, or only undefined ones) the whole
matched span is deleted, without crashing; when captured substrings are
present, each one in order replaces its first occurrence within the
progressively rewritten matched span by a run of asterisks of the captured
substring's length (which is the in-place position whenever the captured
text does not occur earlier in the span). -/
theorem stripHash_replacement_behaviour :
    ∀ (engineFor : String → RegexEngine) (regex fileName : String) (m : RegexMatch),
      regex ≠ "" →
      (engineFor regex).compiles = true →
      (engineFor regex).firstMatch fileName = some m →
      ∃ normalize, stripHash engineFor regex = some normalize
        ∧ (m.captures.filterMap id = [] →
            normalize fileName = Except.ok (m.pre ++ m.post))
        ∧ (m.captures.filterMap id ≠ [] →
            normalize fileName = Except.ok (m.pre
              ++ (m.captures.filterMap id).foldl
                  (fun s hash => replaceFirst s hash (maskHash hash)) m.matched
              ++ m.post))
        ∧ (∀ hash : String, (maskHash hash).length = hash.length) := by
  intro engineFor regex fileName m hne hc hm
  refine ⟨fun fileName => regexReplaceOnce (engineFor regex) fileName, ?_, ?_, ?_, ?_⟩
  · simp [stripHash, hne]
  · intro hcap
    show regexReplaceOnce (engineFor regex) fileName = _
    unfold regexReplaceOnce
    rw [if_neg (by simp [hc]), hm]
    show Except.ok (m.pre ++ replaceCallback m.matched m.captures ++ m.post) = _
    rw [replaceCallback_eq, hcap]
    show Except.ok ((m.pre ++ "") ++ m.post) = _
    rw [String.append_empty]
  · intro hcap
    have hfalse : (m.captures.filterMap id).isEmpty = false := by
      cases h : m.captures.filterMap id with
      | nil => exact absurd h hcap
      | cons a t => rfl
    show regexReplaceOnce (engineFor regex) fileName = _
    unfold regexReplaceOnce
    rw [if_neg (by simp [hc]), hm]
    show Except.ok (m.pre ++ replaceCallback m.matched m.captures ++ m.post) = _
    rw [replaceCallback_eq, hfalse]
    rfl
  · intro hash
    show (hash.data.map fun c =>
        if c = '\n' ∨ c = '\r' ∨ c = '\u2028' ∨ c = '\u2029' then c else '*').length
      = hash.data.length
    simp

/-- C6 witness: the amended C6 theorem applied to the two engine
behaviours of the test suite, giving the masked foo.*****.chunk.js for the
one-capture pattern and the deletion foo.js for the capture-free one. -/
theorem stripHash_replacement_behaviour_witness :
    applyNormalizer (stripHash (fun _ => engineChunkHash) "\\.(\\w{5})\\.chunk\\.js$")
      "foo.abcde.chunk.js" = some (Except.ok "foo.*****.chunk.js")
    ∧ applyNormalizer (stripHash (fun _ => engineWordHash) "\\b\\w{5}\\.")
      "foo.abcde.js" = some (Except.ok "foo.js") := by
  constructor
  · obtain ⟨f, hf, -, hsome, -⟩ := stripHash_replacement_behaviour
      (fun _ => engineChunkHash) "\\.(\\w{5})\\.chunk\\.js$" "foo.abcde.chunk.js"
      { pre := "foo", matched := ".abcde.chunk.js", captures := [some "abcde"], post := "" }
      (by decide) rfl (by decide)
    unfold applyNormalizer
    rw [hf]
    show some (f "foo.abcde.chunk.js") = _
    rw [hsome (by decide)]
    decide
  · obtain ⟨f, hf, hnone, -, -⟩ := stripHash_replacement_behaviour
      (fun _ => engineWordHash) "\\b\\w{5}\\." "foo.abcde.js"
      { pre := "foo.", matched := "abcde.", captures := [], post := "js" }
      (by decide) rfl (by decide)
    unfold applyNormalizer
    rw [hf]
    show some (f "foo.abcde.js") = _
    rw [hnone (by decide)]
    decide

/-- C7 counterexample: for the invalid pattern ( the construction call
stripHash still succeeds, returning a normalizer, and the configuration
error only surfaces when that normalizer is applied to a filename - the
opposite of the claimed fail-fast-at-setup behaviour. -/
theorem stripHash_invalid_pattern_is_lazy :
    (stripHash (fun _ => engineInvalid) "(").isSome = true
    ∧ applyNormalizer (stripHash (fun _ => engineInvalid) "(") "a.js"
        = some (Except.error "SyntaxError: Invalid regular expression") := by
  exact ⟨by decide, by decide⟩

/-- C7 amended: for every nonempty pattern, stripHash itself never fails:
it returns a normalizer even when the pattern does not compile, and the
syntax error surfaces on every application of that normalizer, i.e. on the
first filename it is used on. -/
theorem stripHash_error_surfaces_on_use :
    ∀ (engineFor : String → RegexEngine) (regex fileName : String),
      regex ≠ "" →
      (engineFor regex).compiles = false →
      ∃ normalize, stripHash engineFor regex = some normalize
        ∧ normalize fileName = Except.error "SyntaxError: Invalid regular expression" := by
  intro engineFor regex fileName hne hc
  refine ⟨fun fileName => regexReplaceOnce (engineFor regex) fileName, ?_, ?_⟩
  · simp [stripHash, hne]
  · show regexReplaceOnce (engineFor regex) fileName = _
    simp [regexReplaceOnce, hc]

/-- C7 witness: the amended C7 theorem applied to the invalid pattern (
and the filename bundle.js. -/
theorem stripHash_error_surfaces_on_use_witness :
    ∃ normalize, stripHash (fun _ => engineInvalid) "(" = some normalize
      ∧ normalize "bundle.js" = Except.error "SyntaxError: Invalid regular expression" :=
  stripHash_error_surfaces_on_use (fun _ => engineInvalid) "(" "bundle.js"
    (by decide) rfl

/-! ## Lemmas about the diffTable loop and pipeline -/

theorem string_nil_append (s : String) : "" ++ s = s := rfl

theorem diffLoop_totalSize (t : Int) (om cu : Bool) (L : List Diff) :
    (diffLoop t om cu L).2.2.1 = (L.map Diff.size).sum := by
  induction L with
  | nil => rfl
  | cons f rest ih => simp [diffLoop, ih]

theorem diffLoop_totalDelta (t : Int) (om cu : Bool) (L : List Diff) :
    (diffLoop t om cu L).2.2.2 = (L.map Diff.delta).sum := by
  induction L with
  | nil => rfl
  | cons f rest ih => simp [diffLoop, ih]

theorem diffLoop_omit (t : Int) (cu : Bool) (L : List Diff) :
    (diffLoop t true cu L).1
        = (L.filter fun f => !recordUnchanged t f).map diffRow
    ∧ (diffLoop t true cu L).2.1 = [] := by
  induction L with
  | nil => exact ⟨rfl, rfl⟩
  | cons f rest ih =>
    by_cases h : recordUnchanged t f = true
    · exact ⟨by simp [diffLoop, h, List.filter_cons, ih.1],
             by simp [diffLoop, h, ih.2]⟩
    · rw [Bool.not_eq_true] at h
      exact ⟨by simp [diffLoop, h, List.filter_cons, ih.1],
             by simp [diffLoop, h, ih.2]⟩

/-- The four-record list pinned by the specification and the test suite. -/
def exampleFiles : List Diff :=
  [⟨"one.js", 5000, 2500⟩, ⟨"two.js", 5000, -2500⟩,
   ⟨"three.js", 300, 0⟩, ⟨"four.js", 4500, 9⟩]

/-- C3: with a non-negative threshold, a record is classified unchanged
exactly when its absolute delta is strictly below the threshold, so a
record sitting exactly at the threshold counts as changed; and with
omitUnchanged set, diffTable renders only the rows of changed records -
the unchanged block is empty and unchanged records appear nowhere. -/
theorem diffTable_threshold_classification :
    ∀ (files : List Diff) (o : DiffOptions) (s : String) (key : Diff → String),
      0 ≤ o.minimumChangeThreshold →
      o.omitUnchanged = true →
      o.sortBy = some s →
      sortColumnKey ((jsSplit s ':').headD "") = some key →
      (∀ f : Diff, recordUnchanged o.minimumChangeThreshold f = true
          ↔ (f.delta.natAbs : Int) < o.minimumChangeThreshold)
      ∧ (∀ f : Diff, (f.delta.natAbs : Int) = o.minimumChangeThreshold →
          recordUnchanged o.minimumChangeThreshold f = false)
      ∧ diffTable files o = Except.ok
          ((if o.showTotal then
              totalLines ((files.map Diff.size).sum) ((files.map Diff.delta).sum)
            else "")
            ++ markdownTable
                (((files.insertionSort
                    (jsSortLE key ((jsSplit s ':')[1]? == some "asc"))).filter
                  (fun f => !recordUnchanged o.minimumChangeThreshold f)).map diffRow)) := by
  intro files o s key ht hom hs hk
  refine ⟨?_, ?_, ?_⟩
  · intro f
    simp [recordUnchanged]
  · intro f h
    simp only [recordUnchanged, decide_eq_false_iff_not]
    omega
  · simp only [diffTable, diffTableRun, hs, hk, hom, Except.map]
    rw [(diffLoop_omit o.minimumChangeThreshold o.collapseUnchanged _).1,
        (diffLoop_omit o.minimumChangeThreshold o.collapseUnchanged _).2,
        diffLoop_totalSize, diffLoop_totalDelta,
        List.Perm.sum_eq (List.Perm.map Diff.size (List.perm_insertionSort _ files)),
        List.Perm.sum_eq (List.Perm.map Diff.delta (List.perm_insertionSort _ files))]
    cases hshow : o.showTotal with
    | false => simp [string_nil_append]
    | true => simp

/-- C3 witness: the C3 theorem applied to the four pinned records with
threshold 1, omitUnchanged set, and the default Filename ascending sort. -/
theorem diffTable_threshold_classification_witness :
    diffTable exampleFiles ⟨false, true, true, 1, some "Filename:asc"⟩ = Except.ok
      ((if (false : Bool) then
          totalLines ((exampleFiles.map Diff.size).sum) ((exampleFiles.map Diff.delta).sum)
        else "")
        ++ markdownTable
            (((exampleFiles.insertionSort
                (jsSortLE (fun f => f.filename) ((jsSplit "Filename:asc" ':')[1]? == some "asc"))).filter
              (fun f => !recordUnchanged 1 f)).map diffRow)) :=
  (diffTable_threshold_classification exampleFiles
    ⟨false, true, true, 1, some "Filename:asc"⟩ "Filename:asc" (fun f => f.filename)
    (by decide) rfl rfl rfl).2.2

/-- C4: with showTotal set, the rendered report is prefixed by the two
summary lines built from the sum of size and the sum of delta over all
input records (omitted and collapsed ones included), formatted through
getDeltaText and iconForDifference at (totalDelta, totalSize -
totalDelta); on the four pinned records those sums are 14800 and 9. -/
theorem diffTable_total_lines :
    (∀ (files : List Diff) (o : DiffOptions) (s : String) (key : Diff → String),
      o.showTotal = true →
      o.sortBy = some s →
      sortColumnKey ((jsSplit s ':').headD "") = some key →
      ∃ rest, diffTable files o = Except.ok
        (totalLines ((files.map Diff.size).sum) ((files.map Diff.delta).sum) ++ rest))
    ∧ (exampleFiles.map Diff.size).sum = 14800
    ∧ (exampleFiles.map Diff.delta).sum = 9 := by
  refine ⟨?_, by decide, by decide⟩
  intro files o s key hshow hs hk
  simp only [diffTable, diffTableRun, hs, hk, hshow, Except.map]
  rw [diffLoop_totalSize, diffLoop_totalDelta,
      List.Perm.sum_eq (List.Perm.map Diff.size (List.perm_insertionSort _ files)),
      List.Perm.sum_eq (List.Perm.map Diff.delta (List.perm_insertionSort _ files))]
  exact ⟨_, rfl⟩

/-- C4 witness: the C4 theorem applied to the four pinned records with the
snapshot options and the default sort, total size 14800 and total delta
9. -/
theorem diffTable_total_lines_witness :
    ∃ rest, diffTable exampleFiles ⟨true, true, false, 1, some "Filename:asc"⟩
      = Except.ok (totalLines 14800 9 ++ rest) := by
  obtain ⟨rest, h⟩ := diffTable_total_lines.1 exampleFiles
    ⟨true, true, false, 1, some "Filename:asc"⟩ "Filename:asc" (fun f => f.filename)
    rfl rfl rfl
  rw [show ((exampleFiles.map Diff.size).sum) = 14800 from by decide,
      show ((exampleFiles.map Diff.delta).sum) = 9 from by decide] at h
  exact ⟨rest, h⟩

/-! ## Claims about mutation, the missing sortBy field, and getSortOrder -/

/-- The post-call contents of the caller's files array, when the call
succeeded. -/
def runPostState (r : Except String (String × List Diff)) : Option (List Diff) :=
  match r with
  | Except.ok p => some p.2
  | Except.error _ => none

/-- A two-record list given in descending filename order. -/
def mutationWitnessFiles : List Diff :=
  [⟨"b.js", 1, 1⟩, ⟨"a.js", 2, 2⟩]

/-- C9 counterexample: diffTable sorts the caller's files array in place,
so after a call on a two-record list given in descending filename order
the list holds the records in ascending order - not the order it was
passed in. -/
theorem diffTable_reorders_input :
    runPostState (diffTableRun mutationWitnessFiles ⟨false, false, false, 1, some "Filename:asc"⟩)
      = some [⟨"a.js", 2, 2⟩, ⟨"b.js", 1, 1⟩]
    ∧ some [(⟨"a.js", 2, 2⟩ : Diff), ⟨"b.js", 1, 1⟩] ≠ some mutationWitnessFiles := by
  exact ⟨by decide, by decide⟩

/-- C9 amended: diffTable does not create or destroy records and does not
mutate any record - after a successful call the files array holds exactly
the records it held before, as a permutation (namely the sorted
rearrangement), though not necessarily in the original order. -/
theorem diffTable_permutes_input :
    ∀ (files : List Diff) (o : DiffOptions) (out : String) (post : List Diff),
      diffTableRun files o = Except.ok (out, post) → post.Perm files := by
  intro files o out post h
  unfold diffTableRun at h
  cases hsb : o.sortBy with
  | none => rw [hsb] at h; simp at h
  | some s =>
    rw [hsb] at h
    cases hk : sortColumnKey ((jsSplit s ':').headD "") with
    | none =>
      simp only [hk] at h
      exact Except.noConfusion h
    | some key =>
      simp only [hk, Except.ok.injEq, Prod.mk.injEq] at h
      rw [← h.2]
      exact List.perm_insertionSort _ files

/-- C9 witness: the amended C9 theorem applied to the two-record list,
whose post-call state is its sorted rearrangement. -/
theorem diffTable_permutes_input_witness :
    ([⟨"a.js", 2, 2⟩, ⟨"b.js", 1, 1⟩] : List Diff).Perm mutationWitnessFiles :=
  diffTable_permutes_input mutationWitnessFiles
    ⟨false, false, false, 1, some "Filename:asc"⟩
    "| Filename | Size | Change |  |\n| :--- | :---: | :---: | :---: |\n| `a.js` | 2 B | +2 B (new file) | 🆕 |\n| `b.js` | 1 B | +1 B (new file) | 🆕 |"
    [⟨"a.js", 2, 2⟩, ⟨"b.js", 1, 1⟩] (by decide)

/-- C10: the options object the production run builds for diffTable omits
sortBy, and diffTable then throws the TypeError from splitting undefined
instead of falling back to the default Filename ascending sort, for every
diff list and every raw input combination. -/
theorem diffTable_crashes_without_sortBy :
    ∀ (diff : List Diff) (collapseInput omitInput showTotalInput : String)
      (minimumChangeThreshold : Int),
      (runDiffTableOptions collapseInput omitInput showTotalInput
          minimumChangeThreshold).sortBy = none
      ∧ diffTable diff (runDiffTableOptions collapseInput omitInput showTotalInput
          minimumChangeThreshold)
        = Except.error "TypeError: Cannot read properties of undefined (reading 'split')" := by
  intro diff collapseInput omitInput showTotalInput minimumChangeThreshold
  exact ⟨rfl, rfl⟩

/-- The six sort specifications the specification recognizes: a valid
column name, a colon, and a valid direction. -/
def specValidSortBy (s : String) : Bool :=
  (["Filename", "Size", "Change"] : List String).any fun c =>
    (["asc", "desc"] : List String).any fun d => s == c ++ ":" ++ d

/-- Validity of the first two colon-separated fields of a sort
specification, which is what getSortOrder actually checks. -/
def sortFieldsValid (s : String) : Bool :=
  decide ((jsSplit s ':').headD "" ∈ (["Filename", "Size", "Change"] : List String))
    && decide ((jsSplit s ':')[1]? = some "asc" ∨ (jsSplit s ':')[1]? = some "desc")

/-- C8 counterexample: the string Filename:asc:extra is not a valid
column paired with a valid direction, yet getSortOrder returns it
unchanged instead of falling back to Filename:asc. -/
theorem getSortOrder_accepts_extra_fields :
    specValidSortBy "Filename:asc:extra" = false
    ∧ getSortOrder "Filename:asc:extra" = "Filename:asc:extra"
    ∧ ("Filename:asc:extra" : String) ≠ "Filename:asc" := by
  exact ⟨by decide, by decide, by decide⟩

theorem getSortOrder_eq (s : String) :
    getSortOrder s =
      if ((jsSplit s ':').headD "" ∈ (["Filename", "Size", "Change"] : List String)
          ∧ ((jsSplit s ':')[1]? = some "asc" ∨ (jsSplit s ':')[1]? = some "desc"))
      then s else "Filename:asc" := rfl

/-- C8 amended: getSortOrder falls back to Filename:asc exactly when the
first two colon-separated fields of the specification are not a valid
column and a valid direction (a string with valid first two fields is
returned unchanged, extra fields and all), and rendering with any value
getSortOrder returns never fails on account of the sort specification. -/
theorem getSortOrder_fallback_and_render_safety :
    ∀ (s : String) (files : List Diff) (o : DiffOptions),
      (sortFieldsValid s = false → getSortOrder s = "Filename:asc")
      ∧ (sortFieldsValid s = true → getSortOrder s = s)
      ∧ (o.sortBy = some (getSortOrder s) → (diffTable files o).isOk = true) := by
  intro s files o
  have hiff : sortFieldsValid s = true ↔
      ((jsSplit s ':').headD "" ∈ (["Filename", "Size", "Change"] : List String)
        ∧ ((jsSplit s ':')[1]? = some "asc" ∨ (jsSplit s ':')[1]? = some "desc")) := by
    simp [sortFieldsValid]
  refine ⟨?_, ?_, ?_⟩
  · intro h
    rw [getSortOrder_eq, if_neg]
    intro hcond
    rw [hiff.mpr hcond] at h
    exact Bool.noConfusion h
  · intro h
    rw [getSortOrder_eq, if_pos (hiff.mp h)]
  · intro hsb
    by_cases hcond : ((jsSplit s ':').headD "" ∈ (["Filename", "Size", "Change"] : List String)
        ∧ ((jsSplit s ':')[1]? = some "asc" ∨ (jsSplit s ':')[1]? = some "desc"))
    · have hgs : getSortOrder s = s := by rw [getSortOrder_eq, if_pos hcond]
      rw [hgs] at hsb
      have h3 := hcond.1
      simp only [List.mem_cons, List.not_mem_nil, or_false] at h3
      have hkey : ∃ k, sortColumnKey ((jsSplit s ':').headD "") = some k := by
        rcases h3 with h1 | h1 | h1 <;> rw [h1] <;> exact ⟨_, rfl⟩
      obtain ⟨k, hkey⟩ := hkey
      simp only [diffTable, diffTableRun, hsb, hkey]
      rfl
    · have hgs : getSortOrder s = "Filename:asc" := by rw [getSortOrder_eq, if_neg hcond]
      rw [hgs] at hsb
      have hkey : ∃ k, sortColumnKey ((jsSplit "Filename:asc" ':').headD "") = some k :=
        ⟨_, rfl⟩
      obtain ⟨k, hkey⟩ := hkey
      simp only [diffTable, diffTableRun, hsb, hkey]
      rfl

/-- C8 witness: the amended C8 theorem applied to the invalid
specification bogus, which falls back to Filename:asc, under which
rendering the four pinned records succeeds. -/
theorem getSortOrder_fallback_and_render_safety_witness :
    getSortOrder "bogus" = "Filename:asc"
    ∧ (diffTable exampleFiles ⟨true, true, false, 1, some (getSortOrder "bogus")⟩).isOk = true :=
  ⟨(getSortOrder_fallback_and_render_safety "bogus" exampleFiles
      ⟨true, true, false, 1, some (getSortOrder "bogus")⟩).1 (by decide),
   (getSortOrder_fallback_and_render_safety "bogus" exampleFiles
      ⟨true, true, false, 1, some (getSortOrder "bogus")⟩).2.2 rfl⟩
